import Mathlib

/-!
A shallow embedding of `multipg2csv` (`src/main.go`): a tool that runs one
SQL query against N postgresql endpoints concurrently, renders every result
cell to text, writes each endpoint's rows to a private temporary CSV
artifact, and — after all fetch goroutines have finished (`wg.Wait`) —
copies each completed endpoint's artifact into one zip archive.

The embedding models:
* the per-cell rendering switch of `runQuery` (lines 243–274) over the
  closed set of dynamic value kinds the switch distinguishes;
* `big.Rat.FloatString` (used for `pgtype.Numeric` cells);
* the task lifecycle `connectAndQuery` / `runQuery` as a pure function from
  an endpoint's observable behaviour (connect outcome, query outcome, row
  stream) to its final connection record, including the runtime panic that
  `w.Flush()` causes when the query succeeded with zero rows (the
  `csv.Writer` is the zero value `&csv.Writer{}` whose internal
  `bufio.Writer` is nil);
* the archiving loop of `main` (lines 141–153) including its two panic
  sites (`pgConnectionURLtoFilename` on an unparseable URL, and the
  `io.Copy` error check), and the whole-process run as the composition
  "fan out tasks, join, then archive".

Wall-clock data (timestamps, rows-per-second throughput figures embedded in
status strings) is abstracted: statuses are modelled as a tagged type
carrying the non-temporal payload of the corresponding format string.
-/

namespace MultiPg

/-! ### Cells and the rendering switch -/

/-- One dynamically-typed result cell, as distinguished by the type switch in
`runQuery`.  Values whose Go rendering is delegated to an external library's
default textual form (`%s` on `net.HardwareAddr`, `time.Time`,
`time.Duration`, `*net.IPNet`; `%f` on floats; `json.Marshal` on maps;
`%T`/`%v` in the default arm) carry that textual form as their payload.
`numeric` carries the outcome of `pgtype.Numeric.AssignTo` into a fresh
`big.Rat`: `some q` when the assignment succeeded, `none` when it returned
an error (e.g. the value is NaN), in which case the target rational keeps
its zero value. -/
inductive Cell where
  /-- Go `string`. -/
  | str (s : String)
  /-- Go `net.HardwareAddr`, rendered with `%s`. -/
  | hwaddr (rendered : String)
  /-- Go `int32, int64, uint32, uint64, int8, uint8, big.Int`, rendered with `%d`. -/
  | int (n : Int)
  /-- Go `map[string]interface\x7b\x7d`; payload is the `json.Marshal` outcome
  (`none` = marshal error). -/
  | structured (enc : Option String)
  /-- Go `pgtype.Numeric`; payload is the `AssignTo (*big.Rat)` outcome. -/
  | numeric (q : Option ℚ)
  /-- Go `float32, float64`, rendered with `%f` (fixed point, 6 fractional
  digits); the rendered text is the payload. -/
  | float (rendered : String)
  /-- Go `time.Time, time.Duration, *net.IPNet`, rendered with `%s`. -/
  | temporal (rendered : String)
  /-- Go `bool`, rendered with `%t`. -/
  | boolean (b : Bool)
  /-- Go `nil` (SQL NULL). -/
  | null
  /-- Any other dynamic type: the default switch arm, rendered as
  `(%T): %v`; payloads are the type name and the `%v` form. -/
  | unknown (typeName : String) (valueStr : String)
  deriving DecidableEq, Repr

/-- Left-pad a digit string with zeros to width `n`
(Go pads the fractional digits of `FloatString` this way). -/
def padLeftZeros (s : String) (n : Nat) : String :=
  String.mk (List.replicate (n - s.length) '0') ++ s

/-- Model of Go `math/big`'s `(*Rat).FloatString prec`: decimal form with
exactly `prec` digits after the radix point, last digit rounded to nearest
with halves rounded away from zero; the sign is printed from the numerator's
sign (so a negative value that rounds to zero still prints a minus). -/
def ratFloatString (q : ℚ) (prec : Nat) : String :=
  let sign := if q.num < 0 then "-" else ""
  let scaled := q.num.natAbs * 10 ^ prec
  let quo0 := scaled / q.den
  let quo := if q.den ≤ 2 * (scaled % q.den) then quo0 + 1 else quo0
  if prec = 0 then
    sign ++ toString quo
  else
    sign ++ toString (quo / 10 ^ prec) ++ "." ++
      padLeftZeros (toString (quo % 10 ^ prec)) prec

/-- The per-cell rendering switch of `runQuery` (ValueSerializer): one arm
per case of the Go type switch, in source order, plus the default arm.
For `numeric` the source ignores the `AssignTo` error, so a failed
assignment leaves the fresh `big.Rat` at its zero value, and the cell
renders as `FloatString 5` of zero. -/
def render : Cell → String
  | .str s => s
  | .hwaddr rendered => rendered
  | .int n => toString n
  | .structured none => "bad data"
  | .structured (some j) => j
  | .numeric q => ratFloatString (q.getD 0) 5
  | .float rendered => rendered
  | .temporal rendered => rendered
  | .boolean b => if b then "true" else "false"
  | .null => "[null]"
  | .unknown typeName valueStr => "(" ++ typeName ++ "): " ++ valueStr

/-! ### Lifecycle states

The Go `connectionState` type is a `rune`; note that `stateConnecting` and
`stateConnected` are the *same* rune, so the two phases are
indistinguishable as state values (only `stateComplete` is ever compared
against, in the archiving loop). -/

def stateInit : Char := '🎬'

def stateConnecting : Char := '🔌'

def stateConnected : Char := '🔌'

def stateStartQuery : Char := '🔍'

def stateError : Char := '💣'

def stateFetching : Char := '📝'

def stateComplete : Char := '🏁'

/-- A state is terminal when it is `stateComplete` or `stateError`
(the spec's `Complete` / `Failed`). -/
def terminalState (c : Char) : Bool :=
  c = stateComplete || c = stateError

/-- The status text of a connection, as set by `connectAndQuery` /
`runQuery`.  Each constructor corresponds to one `c.status = ...`
assignment in the source and carries the non-temporal payload of its
format string; wall-clock figures (elapsed seconds, rows-per-second) are
abstracted away. -/
inductive Status where
  | init
  | connecting
  | connectFailed (msg : String)
  | connected
  | executingQuery
  | queryFailed (msg : String)
  | tmpFileFailed (msg : String)
  | rowValuesFailed (msg : String)
  | fetching (rowsSoFar : Nat)
  | completed (rowCount : Nat)
  deriving DecidableEq, Repr

/-- A postgresql connection URL: the raw descriptor string plus the result
of `pgx.ParseConfig` on it — `some (host, database)` when it parses,
`none` when parsing fails. -/
structure ConnURL where
  raw : String
  parsed : Option (String × String)
  deriving DecidableEq, Repr

/-- One iteration of the row stream: `rows.Next()` returned true and
`rows.Values()` either produced the row's cells or returned an error.
The event list ends where `rows.Next()` returns false — which pgx makes
happen both on clean exhaustion and when a mid-stream error terminates the
stream (distinguishable only through `rows.Err()`, which `main.go` never
calls); `TrueRowStream` / `observedRows` below model that distinction. -/
inductive RowFetch where
  | ok (cells : List Cell)
  | err (msg : String)
  deriving DecidableEq, Repr

/-- How the underlying pgx row stream actually ends: clean exhaustion, or a
mid-stream error (e.g. a dropped connection).  pgx v4 signals both the same
way — `rows.Next()` returns false — and only `rows.Err()` tells them
apart. -/
inductive StreamEnd where
  | exhausted
  | errTerminated (msg : String)
  deriving DecidableEq, Repr

/-- A row stream as the server and driver actually produce it: the
delivered per-row events plus how the stream ended. -/
structure TrueRowStream where
  delivered : List RowFetch
  ending : StreamEnd
  deriving DecidableEq, Repr

/-- The event list the fetch loop at line 211 observes from a stream.
Because `main.go` never calls `rows.Err()`, the ending is dropped: an
error-terminated stream is observed exactly like a cleanly exhausted
one. -/
def observedRows (s : TrueRowStream) : List RowFetch :=
  s.delivered

/-- The observable behaviour of one endpoint for one run: how the external
database reacts at each suspension point of the task.  `connectErr` is the
outcome of `pgx.Connect` (given a parseable URL), `queryErr` the outcome of
`pg.Query`, `cols` the field-description names of the result set, `rows`
the row-stream events, and `tmpErr` the outcome `os.CreateTemp` would have
(`some` = it would fail). -/
structure EndpointBehavior where
  url : ConnURL
  connectErr : Option String
  queryErr : Option String
  cols : List String
  rows : List RowFetch
  tmpErr : Option String
  deriving DecidableEq, Repr

/-- The fields of a `connection` record that survive to the end of the
task: final state rune, final status, the URL, and the artifact — the CSV
records handed to the task's `csv.Writer` (`none` when no temporary file
was ever created). -/
structure TaskResult where
  state : Char
  status : Status
  url : ConnURL
  artifact : Option (List (List String))
  deriving DecidableEq, Repr

/-- How one task goroutine ends: it either returns (leaving a final
connection record) or panics, which kills the whole process. -/
inductive TaskOutcome where
  | crashed (msg : String)
  | done (r : TaskResult)
  deriving DecidableEq, Repr

/-- The panic message of calling `Flush` on the zero-value `csv.Writer`
(whose embedded `bufio.Writer` is nil). -/
def nilWriterFlushMsg : String :=
  "runtime error: invalid memory address or nil pointer dereference"

/-- How the fetch loop of `runQuery` ends: an early `return` with the task
failed (carrying whatever artifact exists at that point), or normal loop
exhaustion with the current artifact and row count, after which `w.Flush()`
runs. -/
inductive FetchOut where
  | failed (artifact : Option (List (List String))) (st : Status)
  | finished (artifact : Option (List (List String))) (rowCount : Nat)
  deriving DecidableEq, Repr

/-- The fetch loop of `runQuery` (lines 211–286).  Per iteration, in source
order: on the first row the temporary file is created (failure aborts the
task before `rows.Values()` is consulted) and the header record — the
column names — is written; then `rows.Values()` either fails, aborting the
task with the partial artifact on disk, or yields the row's cells, each
rendered through the type switch and appended as one CSV record.
`artifact` is `none` until the temporary file exists.  The row counter is
incremented every iteration; it only surfaces in the final success
status. -/
def fetchLoop (tmpErr : Option String) (cols : List String) :
    List RowFetch → Option (List (List String)) → Nat → FetchOut
  | [], art, count => .finished art count
  | rf :: rest, art, count =>
    match art with
    | none =>
      match tmpErr with
      | some e => .failed none (.tmpFileFailed e)
      | none =>
        match rf with
        | .err e => .failed (some [cols]) (.rowValuesFailed e)
        | .ok cells =>
            fetchLoop tmpErr cols rest (some ([cols] ++ [cells.map render])) (count + 1)
    | some recs =>
      match rf with
      | .err e => .failed (some recs) (.rowValuesFailed e)
      | .ok cells =>
          fetchLoop tmpErr cols rest (some (recs ++ [cells.map render])) (count + 1)

/-- Model of `runQuery` (lines 195–290).  A query error fails the task.
Otherwise the fetch loop runs; if it ends without the loop body ever having
run (zero-row result set), `w` is still the zero value `csv.Writer` set up
at line 209 and `w.Flush()` at line 287 dereferences its nil internal
`bufio.Writer`: the goroutine panics.  Otherwise the writer is flushed and
the task completes. -/
def runQuery (b : EndpointBehavior) : TaskOutcome :=
  match b.queryErr with
  | some e => .done ⟨stateError, .queryFailed e, b.url, none⟩
  | none =>
    match fetchLoop b.tmpErr b.cols b.rows none 0 with
    | .failed art st => .done ⟨stateError, st, b.url, art⟩
    | .finished none _ => .crashed nilWriterFlushMsg
    | .finished (some recs) count =>
        .done ⟨stateComplete, .completed count, b.url, some recs⟩

/-- The connect outcome of `connectAndQuery`: `pgx.Connect` first parses the
URL, so an unparseable descriptor always yields a connect error; on a
parseable one the behaviour's `connectErr` decides. -/
def connectOutcome (b : EndpointBehavior) : Option String :=
  if b.url.parsed.isNone then
    some ("could not connect to " ++ b.url.raw ++ ": invalid connection URL")
  else b.connectErr

/-- Model of `connectAndQuery` (lines 176–193): a connect failure records
`Failed` and returns without touching siblings; success proceeds to
`runQuery`. -/
def connectAndQuery (b : EndpointBehavior) : TaskOutcome :=
  match connectOutcome b with
  | some e => .done ⟨stateError, .connectFailed e, b.url, none⟩
  | none => runQuery b

/-- The fan-out of `main` (lines 104–112): one task per endpoint, each
reading and writing only its own `connection` record — the results are the
pointwise image of the behaviours. -/
def runAll (bs : List EndpointBehavior) : List TaskOutcome :=
  bs.map connectAndQuery

/-- Model of `pgConnectionURLtoFilename` (lines 356–364): `none` models the
`panic(err)` taken when `pgx.ParseConfig` fails. -/
def pgConnectionURLtoFilename (u : ConnURL) : Option String :=
  match u.parsed with
  | none => none
  | some hd => some (hd.1 ++ "_" ++ hd.2 ++ ".csv")

/-- One archive entry: the zip member name and the CSV records it holds. -/
abbrev ArchiveEntry := String × List (List String)

/-- How the archiving goroutine of `main` ends: with the zip's entry list,
or in one of its two panics. -/
inductive ArchiveOutcome where
  | crashed (msg : String)
  | built (entries : List ArchiveEntry)
  deriving DecidableEq, Repr

/-- The archiving loop of `main` (lines 141–153), over the connection
records in endpoint order, accumulating entries: every record whose state
is not `stateComplete` is skipped; for a complete record the entry name
comes from `pgConnectionURLtoFilename` (panicking on an unparseable URL)
and the artifact is copied (a complete record with no artifact means
`c.tmpFilename` is the empty string, `os.Open` fails with its error
discarded, and the subsequent `io.Copy` error hits the `panic(err)` at
line 149). -/
def buildArchiveAux : List TaskResult → List ArchiveEntry → ArchiveOutcome
  | [], acc => .built acc.reverse
  | c :: rest, acc =>
    if c.state = stateComplete then
      match pgConnectionURLtoFilename c.url with
      | none => .crashed "pgx.ParseConfig failure"
      | some fn =>
        match c.artifact with
        | none => .crashed "io.Copy: invalid argument"
        | some recs => buildArchiveAux rest ((fn, recs) :: acc)
    else buildArchiveAux rest acc

/-- The archiving phase applied to the joined task results. -/
def buildArchive (rs : List TaskResult) : ArchiveOutcome :=
  buildArchiveAux rs []

/-- Whether a task goroutine returned (rather than panicking). -/
def isDone : TaskOutcome → Bool
  | .done _ => true
  | .crashed _ => false

/-- The connection records of the tasks that returned. -/
def doneResults (outs : List TaskOutcome) : List TaskResult :=
  outs.filterMap fun o =>
    match o with
    | .done r => some r
    | .crashed _ => none

/-- The entry a single connection record contributes to the archive, when
the archiving loop neither skips it nor panics on it. -/
def entryOf (r : TaskResult) : Option ArchiveEntry :=
  if r.state = stateComplete then
    match pgConnectionURLtoFilename r.url, r.artifact with
    | some fn, some recs => some (fn, recs)
    | _, _ => none
  else none

/-- The whole process: fan out one task per endpoint, join on
`wg.Wait()` — which only unblocks if every goroutine returned; a panic in
any goroutine kills the process first — then build the archive.  `none`
models a run that dies before producing a readable archive. -/
def systemRun (bs : List EndpointBehavior) : Option (List ArchiveEntry) :=
  let outs := runAll bs
  if outs.all isDone then
    match buildArchive (doneResults outs) with
    | .built es => some es
    | .crashed _ => none
  else none

/-- The rendered CSV record of one row-stream event (meaningful for `ok`
events; an `err` event never reaches the rendering loop). -/
def renderRow : RowFetch → List String
  | .ok cells => cells.map render
  | .err _ => []

/-! ### Sample endpoint behaviours used as concrete witnesses -/

/-- A parseable connection URL. -/
def sampleURL : ConnURL := ⟨"postgresql://h1/db1", some ("h1", "db1")⟩

/-- An endpoint that connects, queries and streams two rows successfully. -/
def sampleOk : EndpointBehavior :=
  ⟨sampleURL, none, none, ["id", "name"],
    [.ok [.int 1, .str "a"], .ok [.int 2, .str "b"]], none⟩

/-- The connection record `sampleOk`'s task ends with. -/
def sampleOkResult : TaskResult :=
  ⟨stateComplete, .completed 2, sampleURL,
    some [["id", "name"], ["1", "a"], ["2", "b"]]⟩

/-- An endpoint whose query succeeds but returns zero rows. -/
def zeroRowEndpoint : EndpointBehavior :=
  ⟨sampleURL, none, none, ["id"], [], none⟩

/-- An endpoint whose row stream fails on its second row. -/
def sampleRowErr : EndpointBehavior :=
  ⟨⟨"postgresql://h2/db2", some ("h2", "db2")⟩, none, none, ["id"],
    [.ok [.int 1], .err "broken pipe"], none⟩

/-- An endpoint whose connection attempt fails. -/
def sampleConnFail : EndpointBehavior :=
  ⟨⟨"postgresql://h3/db3", some ("h3", "db3")⟩, some "connection refused",
    none, [], [], none⟩

/-- A stream that delivers one row and then dies mid-iteration: its true
ending is an error, surfaced by pgx as `rows.Next()` returning false with
`rows.Err()` set. -/
def errEndedStream : TrueRowStream :=
  ⟨[.ok [.int 1]], .errTerminated "connection reset"⟩

/-- The endpoint behaviour `main.go` observes for `errEndedStream`:
connect and query succeed, and the fetch loop sees only the delivered
events — the error ending is invisible to code that never consults
`rows.Err()`. -/
def sampleErrEnded : EndpointBehavior :=
  ⟨⟨"postgresql://h4/db4", some ("h4", "db4")⟩, none, none, ["id"],
    observedRows errEndedStream, none⟩

end MultiPg

namespace MultiPg

/-! ### Helper lemmas -/

/-- Every return path of `connectAndQuery` leaves the connection in a
terminal state (`stateComplete` or `stateError`): this is why `wg.Done()`
firing for every task means every task has settled. -/
theorem connectAndQuery_done_terminal (b : EndpointBehavior) (r : TaskResult)
    (h : connectAndQuery b = .done r) : terminalState r.state = true := by
  unfold connectAndQuery at h
  cases hco : connectOutcome b with
  | some e =>
    rw [hco] at h
    cases h
    rfl
  | none =>
    rw [hco] at h
    unfold runQuery at h
    cases hq : b.queryErr with
    | some e => rw [hq] at h; cases h; rfl
    | none =>
      rw [hq] at h
      cases hfl : fetchLoop b.tmpErr b.cols b.rows none 0 with
      | failed art st => rw [hfl] at h; cases h; rfl
      | finished art count =>
        rw [hfl] at h
        cases art with
        | none => cases h
        | some recs => cases h; rfl

/-- A task that returned in state `stateComplete` took the
`finished (some recs)` branch of `runQuery`: its URL parsed (otherwise the
connect would have failed) and its artifact exists (a zero-row result would
have panicked instead of completing). -/
theorem connectAndQuery_complete_inv (b : EndpointBehavior) (r : TaskResult)
    (h : connectAndQuery b = .done r) (hc : r.state = stateComplete) :
    (pgConnectionURLtoFilename r.url).isSome = true ∧
      r.artifact.isSome = true := by
  unfold connectAndQuery at h
  cases hco : connectOutcome b with
  | some e =>
    rw [hco] at h
    cases h
    exact absurd hc (show stateError ≠ stateComplete by decide)
  | none =>
    have hparse : b.url.parsed.isSome = true := by
      unfold connectOutcome at hco
      by_cases hp : b.url.parsed.isNone
      · simp [hp] at hco
      · simpa [Option.isNone_iff_eq_none, Option.isSome_iff_ne_none] using hp
    rw [hco] at h
    unfold runQuery at h
    cases hq : b.queryErr with
    | some e => rw [hq] at h; cases h; exact absurd hc (show stateError ≠ stateComplete by decide)
    | none =>
      rw [hq] at h
      cases hfl : fetchLoop b.tmpErr b.cols b.rows none 0 with
      | failed art st => rw [hfl] at h; cases h; exact absurd hc (show stateError ≠ stateComplete by decide)
      | finished art count =>
        rw [hfl] at h
        cases art with
        | none => cases h
        | some recs =>
          cases h
          refine ⟨?_, rfl⟩
          unfold pgConnectionURLtoFilename
          cases hp : b.url.parsed with
          | none => rw [hp] at hparse; cases hparse
          | some hd => rfl

/-- A connection record whose state is not `stateComplete` is skipped by the
archiving loop wherever it sits in the list: removing it changes nothing. -/
theorem buildArchiveAux_skip (r : TaskResult) (h : ¬ r.state = stateComplete) :
    ∀ rs₁ rs₂ acc,
      buildArchiveAux (rs₁ ++ r :: rs₂) acc = buildArchiveAux (rs₁ ++ rs₂) acc
  | [], rs₂, acc => by
    simp only [List.nil_append, buildArchiveAux, if_neg h]
  | c :: rs₁, rs₂, acc => by
    simp only [List.cons_append, buildArchiveAux]
    by_cases hc : c.state = stateComplete
    · rw [if_pos hc, if_pos hc]
      cases pgConnectionURLtoFilename c.url with
      | none => rfl
      | some fn =>
        cases c.artifact with
        | none => rfl
        | some recs => exact buildArchiveAux_skip r h rs₁ rs₂ _
    · rw [if_neg hc, if_neg hc]
      exact buildArchiveAux_skip r h rs₁ rs₂ acc

/-- A row stream containing an error event can never exhaust cleanly: the
fetch loop aborts at the first error (or earlier, if the temporary file
cannot be created). -/
theorem fetchLoop_err_fails (cols : List String) :
    ∀ (tmpErr : Option String) rows art count, (∃ e, RowFetch.err e ∈ rows) →
      ∃ art' st, fetchLoop tmpErr cols rows art count = .failed art' st
  | _, [], _, _, h => by obtain ⟨e, he⟩ := h; cases he
  | some e, _ :: _, none, _, _ => ⟨none, .tmpFileFailed e, rfl⟩
  | none, rf :: rest, none, count, h => by
    cases rf with
    | err e => exact ⟨some [cols], .rowValuesFailed e, rfl⟩
    | ok cells =>
      have hrest : ∃ e, RowFetch.err e ∈ rest := by
        obtain ⟨e, he⟩ := h
        rcases List.mem_cons.mp he with heq | hmem
        · exact absurd heq (by simp)
        · exact ⟨e, hmem⟩
      obtain ⟨art', st, hst⟩ :=
        fetchLoop_err_fails cols none rest
          (some ([cols] ++ [cells.map render])) (count + 1) hrest
      exact ⟨art', st, hst⟩
  | tmpErr, rf :: rest, some recs, count, h => by
    cases rf with
    | err e => exact ⟨some recs, .rowValuesFailed e, rfl⟩
    | ok cells =>
      have hrest : ∃ e, RowFetch.err e ∈ rest := by
        obtain ⟨e, he⟩ := h
        rcases List.mem_cons.mp he with heq | hmem
        · exact absurd heq (by simp)
        · exact ⟨e, hmem⟩
      obtain ⟨art', st, hst⟩ :=
        fetchLoop_err_fails cols tmpErr rest
          (some (recs ++ [cells.map render])) (count + 1) hrest
      exact ⟨art', st, hst⟩

/-- Once the temporary file exists, the fetch loop can only exhaust the
stream cleanly when every remaining event yields values; it then appends
exactly the rendered row records, in order. -/
theorem fetchLoop_some_finished (cols : List String) :
    ∀ (tmpErr : Option String) rows recs count art' count',
      fetchLoop tmpErr cols rows (some recs) count = .finished art' count' →
      art' = some (recs ++ rows.map renderRow) ∧
        ∀ rf ∈ rows, ∃ cells, rf = RowFetch.ok cells
  | tmpErr, [], recs, count, art', count', h => by
    have h' : FetchOut.finished (some recs) count = .finished art' count' := h
    cases h'
    exact ⟨by simp, fun rf hrf => absurd hrf (by simp)⟩
  | tmpErr, rf :: rest, recs, count, art', count', h => by
    cases rf with
    | err e =>
      have h' : FetchOut.failed (some recs) (.rowValuesFailed e) =
          .finished art' count' := h
      cases h'
    | ok cells =>
      obtain ⟨h1, h2⟩ :=
        fetchLoop_some_finished cols tmpErr rest (recs ++ [cells.map render])
          (count + 1) art' count' h
      constructor
      · rw [h1]
        simp [renderRow]
      · intro rf' hrf'
        rcases List.mem_cons.mp hrf' with heq | hmem
        · exact ⟨cells, heq⟩
        · exact h2 rf' hmem

/-- When every goroutine returned, the join sees as many settled records as
there were endpoints. -/
theorem doneResults_length (outs : List TaskOutcome) (h : outs.all isDone = true) :
    (doneResults outs).length = outs.length := by
  induction outs with
  | nil => rfl
  | cons o rest ih =>
    rw [List.all_cons, Bool.and_eq_true] at h
    cases o with
    | done r =>
      have hstep : doneResults (TaskOutcome.done r :: rest) = r :: doneResults rest := rfl
      rw [hstep, List.length_cons, List.length_cons, ih h.2]
    | crashed m => simp [isDone] at h

/-- Every settled record of a run comes from some endpoint of the list. -/
theorem doneResults_runAll_mem (bs : List EndpointBehavior) (r : TaskResult)
    (h : r ∈ doneResults (runAll bs)) : ∃ b ∈ bs, connectAndQuery b = .done r := by
  unfold doneResults runAll at h
  rw [List.mem_filterMap] at h
  obtain ⟨o, ho, hor⟩ := h
  rw [List.mem_map] at ho
  obtain ⟨b, hb, hbo⟩ := ho
  refine ⟨b, hb, ?_⟩
  cases o with
  | done r' => cases hor; exact hbo
  | crashed m => cases hor

/-- The archiving loop, on records in which every complete task has a
parseable URL and an artifact, builds exactly one entry per complete
record, in order, and never panics. -/
theorem buildArchiveAux_complete :
    ∀ (rs : List TaskResult),
      (∀ r ∈ rs, r.state = stateComplete →
        (pgConnectionURLtoFilename r.url).isSome = true ∧ r.artifact.isSome = true) →
      ∀ acc, buildArchiveAux rs acc = .built (acc.reverse ++ rs.filterMap entryOf)
  | [], _, acc => by simp [buildArchiveAux]
  | c :: rest, hinv, acc => by
    have hrest := fun r hr => hinv r (List.mem_cons_of_mem c hr)
    by_cases hc : c.state = stateComplete
    · obtain ⟨hfn, hart⟩ := hinv c (List.mem_cons_self c rest) hc
      rw [Option.isSome_iff_exists] at hfn hart
      obtain ⟨fn, hfn⟩ := hfn
      obtain ⟨recs, hart⟩ := hart
      have hstep : buildArchiveAux (c :: rest) acc =
          buildArchiveAux rest ((fn, recs) :: acc) := by
        simp [buildArchiveAux, hc, hfn, hart]
      have hentry : entryOf c = some (fn, recs) := by
        simp [entryOf, hc, hfn, hart]
      rw [hstep, buildArchiveAux_complete rest hrest ((fn, recs) :: acc)]
      simp [hentry, List.filterMap_cons, List.reverse_cons, List.append_assoc]
    · have hstep : buildArchiveAux (c :: rest) acc = buildArchiveAux rest acc := by
        simp [buildArchiveAux, hc]
      have hentry : entryOf c = none := by simp [entryOf, hc]
      rw [hstep, buildArchiveAux_complete rest hrest acc]
      simp [hentry, List.filterMap_cons]

/-- Under the same invariant, the number of built entries equals the number
of complete records. -/
theorem filterMap_entryOf_length :
    ∀ (rs : List TaskResult),
      (∀ r ∈ rs, r.state = stateComplete →
        (pgConnectionURLtoFilename r.url).isSome = true ∧ r.artifact.isSome = true) →
      (rs.filterMap entryOf).length = rs.countP (fun r => r.state == stateComplete)
  | [], _ => rfl
  | c :: rest, hinv => by
    have hrest := fun r hr => hinv r (List.mem_cons_of_mem c hr)
    have ih := filterMap_entryOf_length rest hrest
    by_cases hc : c.state = stateComplete
    · obtain ⟨hfn, hart⟩ := hinv c (List.mem_cons_self c rest) hc
      rw [Option.isSome_iff_exists] at hfn hart
      obtain ⟨fn, hfn⟩ := hfn
      obtain ⟨recs, hart⟩ := hart
      have hentry : entryOf c = some (fn, recs) := by
        simp [entryOf, hc, hfn, hart]
      simp [List.filterMap_cons, List.countP_cons, hentry, hc, ih]
    · have hentry : entryOf c = none := by simp [entryOf, hc]
      simp [List.filterMap_cons, List.countP_cons, hentry, hc, ih]

/-- Under the same invariant, the entry names are, in order, the
`pgConnectionURLtoFilename` of each complete record's URL. -/
theorem filterMap_entryOf_names :
    ∀ (rs : List TaskResult),
      (∀ r ∈ rs, r.state = stateComplete →
        (pgConnectionURLtoFilename r.url).isSome = true ∧ r.artifact.isSome = true) →
      (rs.filterMap entryOf).map Prod.fst =
        (rs.filter (fun r => r.state == stateComplete)).filterMap
          (fun r => pgConnectionURLtoFilename r.url)
  | [], _ => rfl
  | c :: rest, hinv => by
    have hrest := fun r hr => hinv r (List.mem_cons_of_mem c hr)
    have ih := filterMap_entryOf_names rest hrest
    by_cases hc : c.state = stateComplete
    · obtain ⟨hfn, hart⟩ := hinv c (List.mem_cons_self c rest) hc
      rw [Option.isSome_iff_exists] at hfn hart
      obtain ⟨fn, hfn⟩ := hfn
      obtain ⟨recs, hart⟩ := hart
      have hentry : entryOf c = some (fn, recs) := by
        simp [entryOf, hc, hfn, hart]
      simp [List.filterMap_cons, List.filter_cons, hentry, hc, hfn, ih]
    · have hentry : entryOf c = none := by simp [entryOf, hc]
      simp [List.filterMap_cons, List.filter_cons, hentry, hc, ih]

/-- The complete-record invariant holds for every settled record of a run:
completing presupposes a parseable URL and a created artifact. -/
theorem doneResults_complete_inv (bs : List EndpointBehavior) :
    ∀ r ∈ doneResults (runAll bs), r.state = stateComplete →
      (pgConnectionURLtoFilename r.url).isSome = true ∧ r.artifact.isSome = true := by
  intro r hr hc
  obtain ⟨b, _, hb⟩ := doneResults_runAll_mem bs r hr
  exact connectAndQuery_complete_inv b r hb hc

end MultiPg

/-- C1: the cell-rendering switch is total — for every `Cell` in the closed
variant set it produces a string; the default (fallback) arm covers every
kind not matched by an earlier arm, so no input is left without a result. -/
theorem render_total (c : MultiPg.Cell) : ∃ s : String, MultiPg.render c = s :=
  ⟨MultiPg.render c, rfl⟩

/-- C6: the rendering fixtures — one-third as a `pgtype.Numeric` renders with
exactly 5 fractional digits as `0.33333`, a null cell renders as `[null]`,
boolean true renders as `true`, and an unrecognized kind renders as
`(TypeName): value`. -/
theorem render_fixtures :
    MultiPg.render (.numeric (some (1 / 3))) = "0.33333" ∧
    MultiPg.render .null = "[null]" ∧
    MultiPg.render (.boolean true) = "true" ∧
    MultiPg.render (.unknown "TypeName" "value") = "(TypeName): value" := by
  refine ⟨?_, rfl, rfl, rfl⟩
  have h : (1 / 3 : ℚ) = Rat.mk' 1 3 (by decide) (by decide) := by
    apply Rat.ext <;> norm_num
  rw [h]
  decide

/-- C10: when `pgtype.Numeric.AssignTo` fails (e.g. the value is NaN) the
error is discarded, the freshly-allocated `big.Rat` keeps its zero value,
and the cell renders as `0.00000` — not an error and not a distinctive
marker. -/
theorem numeric_assign_failure_renders_zero :
    MultiPg.render (.numeric none) = "0.00000" := by decide

/-- C2 (code defect): the spec promises that an endpoint whose query
succeeds with zero rows creates no artifact, gets no archive entry, and
still ends `Complete`.  In the code the CSV writer is only initialised on
the first row, so with zero rows `w.Flush()` at line 287 runs on the
zero-value `csv.Writer` — whose internal `bufio.Writer` is nil — and the
task goroutine panics, killing the whole process before any `Complete`
state is reached and before any archive is produced. -/
theorem zeroRow_crashes_run :
    MultiPg.connectAndQuery MultiPg.zeroRowEndpoint =
      .crashed MultiPg.nilWriterFlushMsg ∧
    MultiPg.systemRun [MultiPg.zeroRowEndpoint] = none :=
  ⟨rfl, rfl⟩

/-- C3 (code defect): an error occurring while iterating result rows does
not always end in `Failed`.  Only `rows.Values()` errors are checked; a
mid-stream error that terminates the stream itself surfaces as
`rows.Next()` returning false with `rows.Err()` set, and `main.go` never
consults `rows.Err()`.  For a stream that dies after delivering one row
the loop exits exactly as on clean exhaustion, `w.Flush()` runs, the task
reports `stateComplete` ("fetched 1 rows successfully"), and its truncated
artifact is archived — the partial artifact is not skipped by the
aggregator, contradicting the claim. -/
theorem rowErrTerminated_completes :
    MultiPg.errEndedStream.ending = .errTerminated "connection reset" ∧
    MultiPg.sampleErrEnded.rows = MultiPg.observedRows MultiPg.errEndedStream ∧
    MultiPg.connectAndQuery MultiPg.sampleErrEnded =
      .done ⟨MultiPg.stateComplete, .completed 1, MultiPg.sampleErrEnded.url,
        some [["id"], ["1"]]⟩ ∧
    MultiPg.systemRun [MultiPg.sampleErrEnded] =
      some [("h4_db4.csv", [["id"], ["1"]])] :=
  ⟨rfl, rfl, by decide, by decide⟩

/-- The row-iteration error path the code does check: a `rows.Values()`
error (or the temporary-file failure inside the loop) returns with state
`stateError`, never `stateComplete`, and the archiving loop skips the
record wherever it occurs, so its partial artifact contributes no archive
entry. -/
theorem valuesError_task_failed (b : MultiPg.EndpointBehavior)
    (hc : MultiPg.connectOutcome b = none) (hq : b.queryErr = none)
    (he : ∃ e, MultiPg.RowFetch.err e ∈ b.rows) :
    ∃ r, MultiPg.connectAndQuery b = .done r ∧
      r.state = MultiPg.stateError ∧ ¬ r.state = MultiPg.stateComplete ∧
      ∀ rs₁ rs₂, MultiPg.buildArchive (rs₁ ++ r :: rs₂) =
        MultiPg.buildArchive (rs₁ ++ rs₂) := by
  obtain ⟨art', st, hst⟩ :=
    MultiPg.fetchLoop_err_fails b.cols b.tmpErr b.rows none 0 he
  refine ⟨⟨MultiPg.stateError, st, b.url, art'⟩, ?_, rfl,
    show ¬ MultiPg.stateError = MultiPg.stateComplete by decide, ?_⟩
  · unfold MultiPg.connectAndQuery
    rw [hc]
    unfold MultiPg.runQuery
    rw [hq, hst]
  · intro rs₁ rs₂
    exact MultiPg.buildArchiveAux_skip _
      (show ¬ MultiPg.stateError = MultiPg.stateComplete by decide) rs₁ rs₂ []

/-- Concrete instance of `valuesError_task_failed` at an endpoint whose
second row-stream event is a `rows.Values()` error. -/
theorem valuesError_task_failed_witness :
    (MultiPg.connectOutcome MultiPg.sampleRowErr = none ∧
      MultiPg.sampleRowErr.queryErr = none ∧
      (∃ e, MultiPg.RowFetch.err e ∈ MultiPg.sampleRowErr.rows)) ∧
    (∃ r, MultiPg.connectAndQuery MultiPg.sampleRowErr = .done r ∧
      r.state = MultiPg.stateError ∧ ¬ r.state = MultiPg.stateComplete ∧
      ∀ rs₁ rs₂, MultiPg.buildArchive (rs₁ ++ r :: rs₂) =
        MultiPg.buildArchive (rs₁ ++ rs₂)) :=
  ⟨⟨rfl, rfl, ⟨"broken pipe", by decide⟩⟩,
    valuesError_task_failed MultiPg.sampleRowErr rfl rfl ⟨"broken pipe", by decide⟩⟩

/-- C4: when the join unblocks (every task goroutine returned, which is
exactly when `wg.Wait()` can return), every settled record is in a
terminal state, the number of terminal records equals the endpoint count,
and a record in a non-terminal state would contribute no archive entry
wherever it sat — archiving happens-after all terminal states. -/
theorem join_then_archive (bs : List MultiPg.EndpointBehavior)
    (h : (MultiPg.runAll bs).all MultiPg.isDone = true) :
    (∀ r ∈ MultiPg.doneResults (MultiPg.runAll bs),
        MultiPg.terminalState r.state = true) ∧
    (MultiPg.doneResults (MultiPg.runAll bs)).countP
        (fun r => MultiPg.terminalState r.state) = bs.length ∧
    ∀ (r : MultiPg.TaskResult), MultiPg.terminalState r.state = false →
      ∀ rs₁ rs₂, MultiPg.buildArchive (rs₁ ++ r :: rs₂) =
        MultiPg.buildArchive (rs₁ ++ rs₂) := by
  have hterm : ∀ r ∈ MultiPg.doneResults (MultiPg.runAll bs),
      MultiPg.terminalState r.state = true := by
    intro r hr
    obtain ⟨b, _, hb⟩ := MultiPg.doneResults_runAll_mem bs r hr
    exact MultiPg.connectAndQuery_done_terminal b r hb
  refine ⟨hterm, ?_, ?_⟩
  · rw [List.countP_eq_length.mpr hterm, MultiPg.doneResults_length _ h]
    simp [MultiPg.runAll]
  · intro r hr rs₁ rs₂
    have hnc : ¬ r.state = MultiPg.stateComplete := by
      intro hcc
      simp [MultiPg.terminalState, hcc] at hr
    exact MultiPg.buildArchiveAux_skip r hnc rs₁ rs₂ []

/-- Witness for C4: two endpoints, one completing and one failing to
connect — the join sees two settled, terminal tasks. -/
theorem join_then_archive_witness :
    ((MultiPg.runAll [MultiPg.sampleOk, MultiPg.sampleConnFail]).all
        MultiPg.isDone = true) ∧
    (MultiPg.doneResults
        (MultiPg.runAll [MultiPg.sampleOk, MultiPg.sampleConnFail])).countP
        (fun r => MultiPg.terminalState r.state) = 2 :=
  ⟨by decide,
    (join_then_archive [MultiPg.sampleOk, MultiPg.sampleConnFail] (by decide)).2.1⟩

/-- C5 counterexample: with an endpoint that completes two rows and a
sibling whose query succeeds with zero rows, the zero-row task panics and
the process dies before archiving, so no archive is produced at all — the
claim's "for every endpoint list" fails. -/
theorem archive_lost_on_crash :
    MultiPg.connectAndQuery MultiPg.sampleOk = .done MultiPg.sampleOkResult ∧
    MultiPg.sampleOkResult.state = MultiPg.stateComplete ∧
    MultiPg.systemRun [MultiPg.sampleOk, MultiPg.zeroRowEndpoint] = none := by
  refine ⟨by decide, rfl, by decide⟩

/-- C5 (amended): for every endpoint list whose run reaches the join (no
task panicked), the archive is built, its entry count equals the number of
records in state `stateComplete`, `stateError` records contribute no
entries (the entry names are exactly those of the complete records, in
order), and each entry is named `host_database.csv` from its endpoint's
parsed connection descriptor. -/
theorem archive_completeness_after_join (bs : List MultiPg.EndpointBehavior)
    (h : (MultiPg.runAll bs).all MultiPg.isDone = true) :
    ∃ es, MultiPg.systemRun bs = some es ∧
      es.length = (MultiPg.doneResults (MultiPg.runAll bs)).countP
        (fun r => r.state == MultiPg.stateComplete) ∧
      es.map Prod.fst =
        ((MultiPg.doneResults (MultiPg.runAll bs)).filter
            (fun r => r.state == MultiPg.stateComplete)).filterMap
          (fun r => MultiPg.pgConnectionURLtoFilename r.url) ∧
      ∀ raw host db,
        MultiPg.pgConnectionURLtoFilename ⟨raw, some (host, db)⟩ =
          some (host ++ "_" ++ db ++ ".csv") := by
  have hinv := MultiPg.doneResults_complete_inv bs
  have hbuild : MultiPg.buildArchive (MultiPg.doneResults (MultiPg.runAll bs)) =
      .built ((MultiPg.doneResults (MultiPg.runAll bs)).filterMap MultiPg.entryOf) := by
    have hb := MultiPg.buildArchiveAux_complete _ hinv []
    simpa [MultiPg.buildArchive] using hb
  refine ⟨_, ?_, MultiPg.filterMap_entryOf_length _ hinv,
    MultiPg.filterMap_entryOf_names _ hinv, fun raw host db => rfl⟩
  simp only [MultiPg.systemRun]
  rw [if_pos h, hbuild]

/-- Witness for C5 (amended) at a concrete two-endpoint list: one task
completes, one fails to connect. -/
theorem archive_completeness_witness :
    ((MultiPg.runAll [MultiPg.sampleOk, MultiPg.sampleConnFail]).all
        MultiPg.isDone = true) ∧
    (∃ es, MultiPg.systemRun [MultiPg.sampleOk, MultiPg.sampleConnFail] = some es ∧
      es.length = (MultiPg.doneResults
          (MultiPg.runAll [MultiPg.sampleOk, MultiPg.sampleConnFail])).countP
        (fun r => r.state == MultiPg.stateComplete) ∧
      es.map Prod.fst =
        ((MultiPg.doneResults
            (MultiPg.runAll [MultiPg.sampleOk, MultiPg.sampleConnFail])).filter
            (fun r => r.state == MultiPg.stateComplete)).filterMap
          (fun r => MultiPg.pgConnectionURLtoFilename r.url) ∧
      ∀ raw host db,
        MultiPg.pgConnectionURLtoFilename ⟨raw, some (host, db)⟩ =
          some (host ++ "_" ++ db ++ ".csv")) :=
  ⟨by decide,
    archive_completeness_after_join [MultiPg.sampleOk, MultiPg.sampleConnFail]
      (by decide)⟩

/-- C7: a task that completes fetched at least one row, its artifact holds
exactly one header record plus one record per fetched row, and — given the
driver invariant that each row carries one value per field description —
every record, header included, has the header's column count. -/
theorem completed_artifact_shape (b : MultiPg.EndpointBehavior)
    (r : MultiPg.TaskResult)
    (hdone : MultiPg.connectAndQuery b = .done r)
    (hc : r.state = MultiPg.stateComplete)
    (hlen : ∀ cells, MultiPg.RowFetch.ok cells ∈ b.rows →
      cells.length = b.cols.length) :
    ∃ recs, r.artifact = some recs ∧
      recs.length = b.rows.length + 1 ∧ 1 ≤ b.rows.length ∧
      ∀ rec ∈ recs, rec.length = b.cols.length := by
  unfold MultiPg.connectAndQuery at hdone
  cases hco : MultiPg.connectOutcome b with
  | some e =>
    rw [hco] at hdone
    cases hdone
    exact absurd hc (show MultiPg.stateError ≠ MultiPg.stateComplete by decide)
  | none =>
    rw [hco] at hdone
    unfold MultiPg.runQuery at hdone
    cases hq : b.queryErr with
    | some e =>
      rw [hq] at hdone
      cases hdone
      exact absurd hc (show MultiPg.stateError ≠ MultiPg.stateComplete by decide)
    | none =>
      rw [hq] at hdone
      cases hfl : MultiPg.fetchLoop b.tmpErr b.cols b.rows none 0 with
      | failed art st =>
        rw [hfl] at hdone
        cases hdone
        exact absurd hc (show MultiPg.stateError ≠ MultiPg.stateComplete by decide)
      | finished art count =>
        rw [hfl] at hdone
        cases art with
        | none => cases hdone
        | some recs =>
          cases hdone
          cases hrows : b.rows with
          | nil =>
            rw [hrows] at hfl
            cases hfl
          | cons rf rest =>
            rw [hrows] at hfl
            rw [hrows] at hlen
            cases htmp : b.tmpErr with
            | some e =>
              rw [htmp] at hfl
              cases hfl
            | none =>
              rw [htmp] at hfl
              cases rf with
              | err e => cases hfl
              | ok cells =>
                have hstep :
                    MultiPg.fetchLoop none b.cols rest
                      (some ([b.cols] ++ [cells.map MultiPg.render])) 1 =
                      .finished (some recs) count := hfl
                obtain ⟨h1, h2⟩ :=
                  MultiPg.fetchLoop_some_finished b.cols none rest
                    ([b.cols] ++ [cells.map MultiPg.render]) 1 (some recs) count hstep
                have hrecs : recs =
                    [b.cols] ++ [cells.map MultiPg.render] ++
                      rest.map MultiPg.renderRow := by
                  cases h1
                  rfl
                refine ⟨recs, rfl, ?_, by simp [hrows], ?_⟩
                · rw [hrecs]
                  simp [hrows]
                · intro rec hrec
                  rw [hrecs] at hrec
                  simp only [List.append_assoc, List.mem_append,
                    List.mem_singleton, List.mem_map] at hrec
                  rcases hrec with hhd | hrow | ⟨rf', hrf', hrfrec⟩
                  · rw [hhd]
                  · rw [hrow, List.length_map]
                    exact hlen cells (List.mem_cons_self _ _)
                  · obtain ⟨cells', hcells'⟩ := h2 rf' hrf'
                    rw [← hrfrec, hcells']
                    simp only [MultiPg.renderRow, List.length_map]
                    rw [hcells'] at hrf'
                    exact hlen cells' (List.mem_cons_of_mem _ hrf')

/-- Witness for C7 at a two-column, two-row endpoint. -/
theorem completed_artifact_shape_witness :
    (MultiPg.connectAndQuery MultiPg.sampleOk = .done MultiPg.sampleOkResult ∧
      MultiPg.sampleOkResult.state = MultiPg.stateComplete) ∧
    (∃ recs, MultiPg.sampleOkResult.artifact = some recs ∧
      recs.length = MultiPg.sampleOk.rows.length + 1 ∧
      1 ≤ MultiPg.sampleOk.rows.length ∧
      ∀ rec ∈ recs, rec.length = MultiPg.sampleOk.cols.length) :=
  ⟨⟨by decide, rfl⟩,
    completed_artifact_shape MultiPg.sampleOk MultiPg.sampleOkResult
      (by decide) rfl
      (by
        intro cells hmem
        simp only [MultiPg.sampleOk, List.mem_cons, List.not_mem_nil, or_false] at hmem
        rcases hmem with h | h
        · cases h; decide
        · cases h; decide)⟩

/-- C8 (failure isolation): the tasks share no mutable state, so task `i`'s
entire outcome — terminal state, status, artifact — is a function of
endpoint `i`'s behaviour alone; two runs whose endpoint lists agree at
position `i` produce identical outcomes there, whatever the sibling
endpoints do. -/
theorem failure_isolation (bs₁ bs₂ : List MultiPg.EndpointBehavior) (i : Nat)
    (h : bs₁[i]? = bs₂[i]?) :
    (MultiPg.runAll bs₁)[i]? = (MultiPg.runAll bs₂)[i]? := by
  simp only [MultiPg.runAll, List.getElem?_map, h]

/-- Witness for C8: the first endpoint's behaviour differs between the two
lists (connect failure vs row-stream failure); the second task's outcome is
identical. -/
theorem failure_isolation_witness :
    (([MultiPg.sampleConnFail, MultiPg.sampleOk] :
        List MultiPg.EndpointBehavior)[1]? =
      ([MultiPg.sampleRowErr, MultiPg.sampleOk] :
        List MultiPg.EndpointBehavior)[1]?) ∧
    (MultiPg.runAll [MultiPg.sampleConnFail, MultiPg.sampleOk])[1]? =
      (MultiPg.runAll [MultiPg.sampleRowErr, MultiPg.sampleOk])[1]? :=
  ⟨by decide, failure_isolation _ _ 1 (by decide)⟩

/-- C9: `pgConnectionURLtoFilename` panics (`none`) exactly on descriptors
that fail to parse; but a task that reached `stateComplete` necessarily
connected, which required the descriptor to parse, so on the records the
archiving loop names the panic branch is unreachable. -/
theorem pgFilename_safe_for_complete (b : MultiPg.EndpointBehavior)
    (r : MultiPg.TaskResult)
    (hdone : MultiPg.connectAndQuery b = .done r)
    (hc : r.state = MultiPg.stateComplete) :
    (∀ u : MultiPg.ConnURL, u.parsed = none →
      MultiPg.pgConnectionURLtoFilename u = none) ∧
    (MultiPg.pgConnectionURLtoFilename r.url).isSome = true :=
  ⟨fun u hu => by simp [MultiPg.pgConnectionURLtoFilename, hu],
    (MultiPg.connectAndQuery_complete_inv b r hdone hc).1⟩

/-- Witness for C9 at a completing endpoint. -/
theorem pgFilename_safe_for_complete_witness :
    (MultiPg.connectAndQuery MultiPg.sampleOk = .done MultiPg.sampleOkResult) ∧
    (MultiPg.pgConnectionURLtoFilename MultiPg.sampleOkResult.url).isSome = true :=
  ⟨by decide,
    (pgFilename_safe_for_complete MultiPg.sampleOk MultiPg.sampleOkResult
      (by decide) rfl).2⟩
